import Mathlib

/-
Verification of the mailbox messaging core of the `mcp-ide-bridge` repository
(`src/mcp_messaging/server.py`) against its natural-language specification.

The Python code is shallowly embedded: the mutable server object becomes an
explicit state record threaded through each operation, suspension points
(the wait/notify primitive and the retry sleeps of the callback dispatcher)
become explicit environment parameters and trace events, and the filesystem
walk of the configuration loader becomes an explicit list of directory
entries.  Operations return their user-facing result string exactly as the
Python code builds it, the successor state, and a trace of the steps taken.
-/

/-- Python `str.strip` (no arguments), modelled on the character list:
leading and trailing whitespace characters are removed. -/
def strip (s : String) : String :=
  String.mk (((s.data.dropWhile Char.isWhitespace).reverse.dropWhile Char.isWhitespace).reverse)

/-- Python `str.startswith`, modelled on the character list. -/
def startswith (s p : String) : Bool :=
  p.data.isPrefixOf s.data

/-- Modelled from the spec: the `Message` record of `models.py` (absent from the
sources); `server.py` constructs it with the keyword arguments
`from_client_id`, `content` and `timestamp`, and the spec data model gives
`{from: client-id, content: text, timestamp: instant}`, immutable once
constructed.  Instants are modelled as natural-number seconds. -/
structure Message where
  from_client_id : String
  content : String
  timestamp : Nat
deriving DecidableEq

/-- The mailbox map of the in-memory queue backend: client identity to the
ordered sequence of pending messages, as an association list. -/
abbrev Queues := List (String × List Message)

/-- The pending messages of one client (empty when no mailbox exists). -/
def getQueue : Queues → String → List Message
  | [], _ => []
  | (k, ms) :: rest, c => if k = c then ms else getQueue rest c

/-- Modelled from the spec: `InMemoryQueueBackend.send_message` of
`queue_backends.py` (absent from the sources); the spec Mailbox Store
`enqueue(recipient, message)` appends to the recipient mailbox, creating the
mailbox if absent. -/
def enqueue : Queues → String → Message → Queues
  | [], c, m => [(c, [m])]
  | (k, ms) :: rest, c, m =>
    if k = c then (k, ms ++ [m]) :: rest else (k, ms) :: enqueue rest c m

/-- Removes the mailbox entry of one client. -/
def removeKey : Queues → String → Queues
  | [], _ => []
  | (k, ms) :: rest, c =>
    if k = c then removeKey rest c else (k, ms) :: removeKey rest c

/-- Modelled from the spec: `InMemoryQueueBackend.get_messages(client, pop=True)`
of `queue_backends.py` (absent from the sources); the spec Mailbox Store
`popAll(clientId)` atomically detaches and returns the entire current mailbox
content, leaving it empty. -/
def popAll (qs : Queues) (c : String) : List Message × Queues :=
  (getQueue qs c, removeKey qs c)

/-- Modelled from the spec: `InMemoryQueueBackend.cleanup_expired_messages` of
`queue_backends.py` (absent from the sources); the spec Mailbox Store
`cleanupExpired(now)` removes, from every mailbox, messages older than the
configured expiration window. -/
def cleanup_expired_messages (expiration now : Nat) (qs : Queues) : Queues :=
  qs.map (fun p => (p.1, p.2.filter (fun m => now ≤ m.timestamp + expiration)))

/-- The timeout block of a client configuration (`server.py` lines 35-39);
the Python floats 180.0, 60.0 and 300.0 are exact small values, modelled as
natural-number seconds. -/
structure Timeouts where
  send_message_and_wait : Nat
  get_messages : Nat
  message_expiration : Nat
deriving DecidableEq

/-- A resolved client configuration (`server.py` DEFAULT_CONFIG shape). -/
structure Config where
  max_tokens : Nat
  max_iterations : Nat
  timeouts : Timeouts
deriving DecidableEq

/-- `DEFAULT_CONFIG` of `server.py` lines 32-40. -/
def DEFAULT_CONFIG : Config :=
  { max_tokens := 4096
    max_iterations := 10
    timeouts :=
      { send_message_and_wait := 180
        get_messages := 60
        message_expiration := 300 } }

/-- The optional `message_config` block of a parsed `mcp_recipients.json`
file, with each field possibly absent. -/
structure MessageConfig where
  max_tokens : Option Nat
  max_iterations : Option Nat
  send_message_and_wait : Option Nat
  get_messages : Option Nat
  message_expiration : Option Nat
deriving DecidableEq

/-- A parsed `mcp_recipients.json` file: its `my_id` field and its
`message_config` block. -/
structure FileConfig where
  my_id : String
  message_config : MessageConfig
deriving DecidableEq

/-- One directory visited by the upward walk of `load_client_config`:
either no `mcp_recipients.json` file exists there, or opening/parsing the
file raises, or it parses to a `FileConfig`. -/
inductive DirEntry where
  | noFile
  | raising
  | file (cfg : FileConfig)
deriving DecidableEq

/-- The merge of `server.py` lines 54-61: explicit `message_config` fields
override the defaults, and the timeout dictionary is
`{**DEFAULT_CONFIG["timeouts"], **message_config.get("timeouts", {})}`. -/
def mergeConfig (mc : MessageConfig) : Config :=
  { max_tokens := mc.max_tokens.getD DEFAULT_CONFIG.max_tokens
    max_iterations := mc.max_iterations.getD DEFAULT_CONFIG.max_iterations
    timeouts :=
      { send_message_and_wait :=
          mc.send_message_and_wait.getD DEFAULT_CONFIG.timeouts.send_message_and_wait
        get_messages := mc.get_messages.getD DEFAULT_CONFIG.timeouts.get_messages
        message_expiration :=
          mc.message_expiration.getD DEFAULT_CONFIG.timeouts.message_expiration } }

/-- `load_client_config` of `server.py` lines 42-66.  The upward directory
walk is the list of visited directories, in walk order.  A directory without
the file is skipped; a file that raises on open/parse aborts the whole walk
to the defaults (the `try` of the Python code wraps the entire loop); a file
whose `my_id` matches returns the merged configuration; a non-matching file
lets the walk continue; an exhausted walk returns `DEFAULT_CONFIG`.  The
function is total: no failure propagates to the caller. -/
def load_client_config : List DirEntry → String → Config
  | [], _ => DEFAULT_CONFIG
  | DirEntry.noFile :: rest, c => load_client_config rest c
  | DirEntry.raising :: _, _ => DEFAULT_CONFIG
  | DirEntry.file cfg :: rest, c =>
    if cfg.my_id = c then mergeConfig cfg.message_config
    else load_client_config rest c

/-- First-match lookup in the `client_configs` cache dictionary. -/
def cacheFind : List (String × Config) → String → Option Config
  | [], _ => none
  | (k, v) :: rest, c => if k = c then some v else cacheFind rest c

/-- The state of a `MessagingServer` object: the expiration window the
backend was constructed with (`server.py` lines 321-325), the backend
mailbox map, and the `client_configs` cache dictionary. -/
structure MessagingServer where
  message_expiration_seconds : Nat
  queues : Queues
  client_configs : List (String × Config)
deriving DecidableEq

/-- `MessagingServer.get_client_config` of `server.py` lines 182-186: return
the cached configuration when present, otherwise perform the external lookup
(`load_client_config`), store the result, and return it.  The third
component counts the external lookups performed by this call (0 or 1). -/
def get_client_config (fs : List DirEntry) (st : MessagingServer) (client_id : String) :
    Config × MessagingServer × Nat :=
  match cacheFind st.client_configs client_id with
  | some cfg => (cfg, st, 0)
  | none =>
    let cfg := load_client_config fs client_id
    (cfg, { st with client_configs := st.client_configs ++ [(client_id, cfg)] }, 1)

/-- One observable step of a messaging operation, in execution order. -/
inductive Event where
  | configLookup (client_id : String)
  | sweep
  | validate
  | enqueueStep (recipient_id : String)
  | notifyStep (recipient_id : String)
  | popAllStep (client_id : String)
  | waitStep (client_id : String)
deriving DecidableEq

/-- The environment of one suspension on the wait/notify primitive:
whether a notification arrived before the timeout, and the effect of
concurrent operations on the mailbox map while the caller was suspended. -/
structure WaitEnv where
  arrived : Bool
  during : Queues → Queues

/-- Modelled from the spec: `format_relative_time` of `models.py` (absent
from the sources); the spec calls rendering a presentation concern requiring
only that the timestamp be supplied, so the timestamp is rendered directly. -/
def format_relative_time (ts : Nat) : String :=
  toString ts

/-- `MessagingServer._format_messages_as_markdown` of `server.py`
lines 292-308. -/
def format_messages_as_markdown (client_id : String) (messages : List Message) : String :=
  let n := messages.length
  let header := "## 📨 Messages for `" ++ client_id ++ "` (" ++ toString n
    ++ " message" ++ (if n ≠ 1 then "s" else "") ++ ")"
  let body := (messages.map (fun m =>
    ["**From:** `" ++ m.from_client_id ++ "`  ",
     "**Time:** " ++ format_relative_time m.timestamp ++ "  ",
     "**Message:** " ++ m.content,
     "",
     "---",
     ""])).flatten
  String.intercalate "\n" (header :: "" :: body)

/-- `MessagingServer.send_message` of `server.py` lines 188-224: look up the
sender configuration, sweep expired messages, validate the three inputs
(returning an error result for an empty sender or recipient and a warning
result for empty content), and on success construct the message, enqueue it
for the recipient, and notify the recipient wait primitive.  Returns the
result string, the successor state, and the step trace. -/
def send_message (fs : List DirEntry) (st : MessagingServer)
    (sender_id recipient_id content : String) (now : Nat) :
    String × MessagingServer × List Event :=
  let r := get_client_config fs st sender_id
  let st1 := r.2.1
  let st2 := { st1 with
    queues := cleanup_expired_messages st1.message_expiration_seconds now st1.queues }
  let tr := [Event.configLookup sender_id, Event.sweep, Event.validate]
  if strip sender_id = "" then
    ("❌ **Error**: Sender ID cannot be empty", st2, tr)
  else if strip recipient_id = "" then
    ("❌ **Error**: Recipient ID cannot be empty", st2, tr)
  else if strip content = "" then
    ("⚠️ **Warning**: Sending empty message", st2, tr)
  else
    let m : Message :=
      { from_client_id := sender_id, content := content, timestamp := now }
    let st3 := { st2 with queues := enqueue st2.queues recipient_id m }
    ("✅ **Message sent successfully** to `" ++ recipient_id ++ "`", st3,
      tr ++ [Event.enqueueStep recipient_id, Event.notifyStep recipient_id])

/-- The check of `server.py` line 236: the send result is treated as a
failure when it starts with the error marker or the warning marker. -/
def sendFailed (send_result : String) : Bool :=
  startswith send_result "❌" || startswith send_result "⚠️"

/-- `MessagingServer.send_message_and_wait` of `server.py` lines 226-252:
look up the sender configuration for the timeout, perform `send_message`,
return its result unchanged when it is an error or a warning, otherwise
suspend on the sender wait primitive; on arrival pop the sender mailbox and
return either the formatted messages or the distinct empty-queue result; on
timeout return the timeout result. -/
def send_message_and_wait (fs : List DirEntry) (st : MessagingServer)
    (sender_id recipient_id content : String) (now : Nat) (env : WaitEnv) :
    String × MessagingServer × List Event :=
  let r0 := get_client_config fs st sender_id
  let timeout := r0.1.timeouts.send_message_and_wait
  let r1 := send_message fs r0.2.1 sender_id recipient_id content now
  let send_result := r1.1
  let st1 := r1.2.1
  let tr := Event.configLookup sender_id :: r1.2.2
  if sendFailed send_result then
    (send_result, st1, tr)
  else
    let st2 := { st1 with queues := env.during st1.queues }
    let tr2 := tr ++ [Event.waitStep sender_id]
    if env.arrived then
      let p := popAll st2.queues sender_id
      let st3 := { st2 with queues := p.2 }
      let tr3 := tr2 ++ [Event.popAllStep sender_id]
      if p.1 ≠ [] then
        (format_messages_as_markdown sender_id p.1, st3, tr3)
      else
        ("📭 **No response received** (queue was empty)", st3, tr3)
    else
      ("⏰ **Timeout**: No response received within " ++ toString timeout
        ++ " seconds", st2, tr2)

/-- `MessagingServer.get_messages` of `server.py` lines 254-290: look up the
client configuration for the timeout, sweep expired messages, validate the
client identity, pop the mailbox; when non-empty return the formatted
messages immediately; when empty suspend on the client wait primitive, and
on arrival retry the pop once, returning the formatted messages or the
no-messages result; on timeout return the no-messages result. -/
def get_messages (fs : List DirEntry) (st : MessagingServer)
    (client_id : String) (now : Nat) (env : WaitEnv) :
    String × MessagingServer × List Event :=
  let r := get_client_config fs st client_id
  let st1 := r.2.1
  let st2 := { st1 with
    queues := cleanup_expired_messages st1.message_expiration_seconds now st1.queues }
  let tr := [Event.configLookup client_id, Event.sweep, Event.validate]
  if strip client_id = "" then
    ("❌ **Error**: Client ID cannot be empty", st2, tr)
  else
    let p := popAll st2.queues client_id
    let st3 := { st2 with queues := p.2 }
    let tr2 := tr ++ [Event.popAllStep client_id]
    if p.1 ≠ [] then
      (format_messages_as_markdown client_id p.1, st3, tr2)
    else
      let st4 := { st3 with queues := env.during st3.queues }
      let tr3 := tr2 ++ [Event.waitStep client_id]
      if env.arrived then
        let p2 := popAll st4.queues client_id
        let st5 := { st4 with queues := p2.2 }
        let tr4 := tr3 ++ [Event.popAllStep client_id]
        if p2.1 ≠ [] then
          (format_messages_as_markdown client_id p2.1, st5, tr4)
        else
          ("📭 **No messages** for you right now.", st5, tr4)
      else
        ("📭 **No messages** for you right now.", st4, tr3)

/-- The outcome of one HTTP POST attempt of the callback dispatcher, as the
Python exception handlers of `fire_single_callback` distinguish them:
a 2xx response, an `httpx.TimeoutException`, an `httpx.HTTPStatusError`
(non-2xx status raised by `raise_for_status`), or any other exception. -/
inductive CallbackOutcome where
  | success
  | timeoutException
  | httpStatusError (code : Nat)
  | otherError
deriving DecidableEq

/-- One observable step of a callback delivery. -/
inductive CallbackEvent where
  | post (attempt : Nat)
  | delivered (attempt : Nat)
  | backoff (seconds : Nat)
  | failedAfter (attempts : Nat)
deriving DecidableEq

/-- `max_retries` of `server.py` line 136. -/
def max_retries : Nat := 3

/-- `retry_delays` of `server.py` line 138. -/
def retry_delays : List Nat := [1, 2, 4]

/-- The `for attempt in range(max_retries)` loop of `fire_single_callback`
(`server.py` lines 140-161), over the list of remaining attempt indices:
a successful POST returns at once; a failed attempt sleeps the backoff delay
unless it was the last attempt; an exhausted loop logs the failure and
returns normally.  Every exception of an attempt is caught inside the loop,
so the function is total and surfaces nothing to its caller. -/
def fire_loop (endpoint : Nat → CallbackOutcome) : List Nat → List CallbackEvent
  | [] => [CallbackEvent.failedAfter max_retries]
  | attempt :: rest =>
    match endpoint attempt with
    | CallbackOutcome.success => [CallbackEvent.post attempt, CallbackEvent.delivered attempt]
    | _ =>
      [CallbackEvent.post attempt]
        ++ (if attempt < max_retries - 1
            then [CallbackEvent.backoff (retry_delays.getD attempt 0)] else [])
        ++ fire_loop endpoint rest

/-- `fire_single_callback` of `server.py` lines 134-161, as the trace of its
attempts.  The endpoint behaviour maps each attempt index to its outcome. -/
def fire_single_callback (endpoint : Nat → CallbackOutcome) : List CallbackEvent :=
  fire_loop endpoint (List.range max_retries)

/-- The simulated seconds a delivery trace spends suspended (its backoff
sleeps; the per-attempt HTTP time is not modelled). -/
def callback_elapsed (tr : List CallbackEvent) : Nat :=
  (tr.map (fun ev =>
    match ev with
    | CallbackEvent.backoff s => s
    | _ => 0)).sum

/-- `fire_callbacks` of `server.py` lines 112-131: one delivery task is
spawned per URL and `await asyncio.gather(*tasks, return_exceptions=True)`
joins them all before the function returns, so the caller observes no
delivery outcome (the result is the unit value) but is suspended until the
slowest task finishes.  The tasks run concurrently on the event loop, so the
elapsed suspension of the gather is modelled as the maximum of the per-task
elapsed times.  The subscriber URL list (read by
`load_callbacks_from_config`) is an input. -/
def fire_callbacks (urls : List String) (endpoints : String → Nat → CallbackOutcome) :
    Unit × Nat :=
  ((), (urls.map (fun u => callback_elapsed (fire_single_callback (endpoints u)))).foldr Nat.max 0)

/-! ## Helper lemmas -/

lemma data_append (s t : String) : (s ++ t).data = s.data ++ t.data := by
  cases s; cases t; rfl

lemma sendFailed_success (rid : String) :
    sendFailed ("✅ **Message sent successfully** to `" ++ rid ++ "`") = false := by
  unfold sendFailed startswith
  rw [data_append, data_append]
  have h1 : "✅ **Message sent successfully** to `".data
      = '✅' :: " **Message sent successfully** to `".data := rfl
  rw [h1, List.cons_append, List.cons_append]
  simp [List.isPrefixOf]

lemma timeout_ne_empty_reply (t : Nat) :
    ("⏰ **Timeout**: No response received within " ++ toString t ++ " seconds")
      ≠ "📭 **No response received** (queue was empty)" := by
  intro h
  have h2 := congrArg String.data h
  rw [data_append, data_append] at h2
  have h3 : "⏰ **Timeout**: No response received within ".data
      = '⏰' :: " **Timeout**: No response received within ".data := rfl
  rw [h3, List.cons_append, List.cons_append] at h2
  have h4 : "📭 **No response received** (queue was empty)".data
      = '📭' :: " **No response received** (queue was empty)".data := rfl
  rw [h4] at h2
  have h5 : ('⏰' : Char) = '📭' := by injection h2
  exact absurd h5 (by decide)

lemma cacheFind_append_none : ∀ (l : List (String × Config)) (c : String) (v : Config),
    cacheFind l c = none → cacheFind (l ++ [(c, v)]) c = some v
  | [], c, v, _ => by simp [cacheFind]
  | (k, w) :: rest, c, v, h => by
    by_cases hk : k = c
    · simp [cacheFind, hk] at h
    · simp only [List.cons_append, cacheFind, if_neg hk] at h ⊢
      exact cacheFind_append_none rest c v h

lemma getQueue_enqueue : ∀ (qs : Queues) (c : String) (m : Message),
    getQueue (enqueue qs c m) c = getQueue qs c ++ [m]
  | [], c, m => by simp [enqueue, getQueue]
  | (k, ms) :: rest, c, m => by
    by_cases hk : k = c
    · simp [enqueue, getQueue, hk]
    · simp only [enqueue, getQueue, if_neg hk]
      exact getQueue_enqueue rest c m

lemma get_client_config_preserves (fs : List DirEntry) (st : MessagingServer) (c : String) :
    (get_client_config fs st c).2.1.queues = st.queues ∧
    (get_client_config fs st c).2.1.message_expiration_seconds
      = st.message_expiration_seconds := by
  cases h : cacheFind st.client_configs c <;> simp [get_client_config, h]

lemma gcc_lookup_le_one (fs : List DirEntry) (st : MessagingServer) (c : String) :
    (get_client_config fs st c).2.2 ≤ 1 := by
  cases h : cacheFind st.client_configs c <;> simp [get_client_config, h]

lemma cacheFind_after_gcc (fs : List DirEntry) (st : MessagingServer) (c : String) :
    cacheFind (get_client_config fs st c).2.1.client_configs c
      = some (get_client_config fs st c).1 := by
  cases h : cacheFind st.client_configs c with
  | some cfg => simp [get_client_config, h]
  | none =>
    have h2 := cacheFind_append_none st.client_configs c (load_client_config fs c) h
    simp [get_client_config, h, h2]

lemma gcc_idempotent (fs : List DirEntry) (st : MessagingServer) (c : String) :
    get_client_config fs (get_client_config fs st c).2.1 c
      = ((get_client_config fs st c).1, (get_client_config fs st c).2.1, 0) := by
  have h2 := cacheFind_after_gcc fs st c
  revert h2
  generalize get_client_config fs st c = r
  intro h2
  simp [get_client_config, h2]

/-! ## Claims C8 and C9: client configuration -/

/-- The upward walk finds no usable matching configuration for the client:
every visited directory either lacks the file or holds a non-matching file,
or the walk hits a file whose read raises before any match. -/
def no_matching_config : List DirEntry → String → Bool
  | [], _ => true
  | DirEntry.noFile :: rest, c => no_matching_config rest c
  | DirEntry.raising :: _, _ => true
  | DirEntry.file cfg :: rest, c =>
    decide (cfg.my_id ≠ c) && no_matching_config rest c

/-- Claim C8 (confirmed): client-configuration lookup never raises to the
caller (the embedded `load_client_config` is total, with read failure an
explicit `DirEntry.raising` case), and when no matching configuration source
is found, or when reading one fails, the returned configuration equals the
fixed defaults: send-and-wait timeout 180s, receive timeout 60s, message
expiration 300s. -/
theorem load_client_config_defaults (fs : List DirEntry) (c : String)
    (h : no_matching_config fs c = true) :
    load_client_config fs c = DEFAULT_CONFIG ∧
    DEFAULT_CONFIG.timeouts.send_message_and_wait = 180 ∧
    DEFAULT_CONFIG.timeouts.get_messages = 60 ∧
    DEFAULT_CONFIG.timeouts.message_expiration = 300 := by
  refine ⟨?_, rfl, rfl, rfl⟩
  induction fs with
  | nil => rfl
  | cons e rest ih =>
    cases e with
    | noFile =>
      simp only [no_matching_config] at h
      simpa [load_client_config] using ih h
    | raising => rfl
    | file cfg =>
      simp only [no_matching_config, Bool.and_eq_true, decide_eq_true_eq] at h
      simp only [load_client_config, if_neg h.1]
      exact ih h.2

/-- Witness for C8 at a concrete walk: one directory without the file, then
a directory whose file raises on read. -/
theorem load_client_config_defaults_witness :
    no_matching_config [DirEntry.noFile, DirEntry.raising] "alice" = true ∧
    (load_client_config [DirEntry.noFile, DirEntry.raising] "alice" = DEFAULT_CONFIG ∧
     DEFAULT_CONFIG.timeouts.send_message_and_wait = 180 ∧
     DEFAULT_CONFIG.timeouts.get_messages = 60 ∧
     DEFAULT_CONFIG.timeouts.message_expiration = 300) :=
  ⟨by decide, load_client_config_defaults [DirEntry.noFile, DirEntry.raising] "alice" (by decide)⟩

/-- Claim C9 (confirmed): a `get_client_config` call performs at most one
external lookup, leaves the resolved configuration in the cache, and a
subsequent call for the same client identity returns that cached value with
the same state and zero external lookups. -/
theorem get_client_config_cached_once (fs : List DirEntry) (st : MessagingServer) (c : String) :
    (get_client_config fs st c).2.2 ≤ 1 ∧
    cacheFind (get_client_config fs st c).2.1.client_configs c
      = some (get_client_config fs st c).1 ∧
    get_client_config fs (get_client_config fs st c).2.1 c
      = ((get_client_config fs st c).1, (get_client_config fs st c).2.1, 0) :=
  ⟨gcc_lookup_le_one fs st c, cacheFind_after_gcc fs st c, gcc_idempotent fs st c⟩

/-! ## Claims C4 and C5: callback dispatcher -/

lemma fire_loop_fail (e : Nat → CallbackOutcome) (a : Nat) (rest : List Nat)
    (h : e a ≠ CallbackOutcome.success) :
    fire_loop e (a :: rest) =
      [CallbackEvent.post a]
        ++ (if a < max_retries - 1
            then [CallbackEvent.backoff (retry_delays.getD a 0)] else [])
        ++ fire_loop e rest := by
  cases hc : e a with
  | success => exact absurd hc h
  | timeoutException => simp [fire_loop, hc]
  | httpStatusError code => simp [fire_loop, hc]
  | otherError => simp [fire_loop, hc]

lemma fire_single_callback_all_fail (e : Nat → CallbackOutcome)
    (h : ∀ n, e n ≠ CallbackOutcome.success) :
    fire_single_callback e =
      [CallbackEvent.post 0, CallbackEvent.backoff 1, CallbackEvent.post 1,
       CallbackEvent.backoff 2, CallbackEvent.post 2, CallbackEvent.failedAfter 3] := by
  have hr : List.range max_retries = [0, 1, 2] := rfl
  unfold fire_single_callback
  rw [hr, fire_loop_fail e 0 _ (h 0), fire_loop_fail e 1 _ (h 1), fire_loop_fail e 2 _ (h 2)]
  simp [fire_loop, retry_delays, max_retries]

lemma fire_single_callback_first_success (e : Nat → CallbackOutcome)
    (h : e 0 = CallbackOutcome.success) :
    fire_single_callback e = [CallbackEvent.post 0, CallbackEvent.delivered 0] := by
  have hr : List.range max_retries = [0, 1, 2] := rfl
  unfold fire_single_callback
  rw [hr]
  simp [fire_loop, h]

/-- Claim C4 (confirmed): a delivery whose endpoint fails every attempt
performs exactly three POST attempts with backoff sleeps of 1s between
attempts 1 and 2 and 2s between attempts 2 and 3, then returns normally with
only a failure log; a delivery whose endpoint succeeds on the first attempt
performs exactly one POST attempt. -/
theorem fire_single_callback_retry_policy (e1 e2 : Nat → CallbackOutcome)
    (h1 : ∀ n, e1 n ≠ CallbackOutcome.success) (h2 : e2 0 = CallbackOutcome.success) :
    fire_single_callback e1 =
      [CallbackEvent.post 0, CallbackEvent.backoff 1, CallbackEvent.post 1,
       CallbackEvent.backoff 2, CallbackEvent.post 2, CallbackEvent.failedAfter 3] ∧
    (fire_single_callback e1).countP
      (fun ev => match ev with | CallbackEvent.post _ => true | _ => false) = 3 ∧
    fire_single_callback e2 = [CallbackEvent.post 0, CallbackEvent.delivered 0] := by
  have k := fire_single_callback_all_fail e1 h1
  refine ⟨k, ?_, fire_single_callback_first_success e2 h2⟩
  rw [k]
  rfl

/-- Witness for C4: an endpoint answering HTTP 500 on every attempt, and an
endpoint answering 2xx at once. -/
theorem fire_single_callback_retry_policy_witness :
    fire_single_callback (fun _ => CallbackOutcome.httpStatusError 500) =
      [CallbackEvent.post 0, CallbackEvent.backoff 1, CallbackEvent.post 1,
       CallbackEvent.backoff 2, CallbackEvent.post 2, CallbackEvent.failedAfter 3] ∧
    fire_single_callback (fun _ => CallbackOutcome.success) =
      [CallbackEvent.post 0, CallbackEvent.delivered 0] :=
  ⟨(fire_single_callback_retry_policy (fun _ => CallbackOutcome.httpStatusError 500)
      (fun _ => CallbackOutcome.success) (fun _ h => CallbackOutcome.noConfusion h) rfl).1,
   (fire_single_callback_retry_policy (fun _ => CallbackOutcome.httpStatusError 500)
      (fun _ => CallbackOutcome.success) (fun _ h => CallbackOutcome.noConfusion h) rfl).2.2⟩

/-- Claim C5 is refuted at this input: with a single subscriber URL whose
endpoint fails every attempt, `fire_callbacks` spends the full 3 simulated
seconds of the delivery backoff before returning, so the emitting caller is
blocked well beyond dispatch initiation. -/
theorem fire_callbacks_blocks_cex :
    fire_callbacks ["http-subscriber"] (fun _ _ => CallbackOutcome.httpStatusError 500)
      = ((), 3) ∧ (3 : Nat) ≠ 0 := by
  constructor
  · rfl
  · decide

/-- Claim C5 (amended): `fire_callbacks` joins all spawned deliveries via
`asyncio.gather` before returning, so the emitting caller is suspended at
least as long as each per-URL delivery; the aggregate delivery outcome is
still not observable in its result, which is always the unit value. -/
theorem fire_callbacks_joins_all (urls : List String)
    (endpoints : String → Nat → CallbackOutcome) (u : String) (hu : u ∈ urls) :
    (fire_callbacks urls endpoints).1 = () ∧
    callback_elapsed (fire_single_callback (endpoints u))
      ≤ (fire_callbacks urls endpoints).2 := by
  refine ⟨rfl, ?_⟩
  unfold fire_callbacks
  induction urls with
  | nil => cases hu
  | cons v rest ih =>
    rcases List.mem_cons.mp hu with hv | hrest
    · subst hv
      simp only [List.map_cons, List.foldr_cons]
      exact Nat.le_max_left _ _
    · simp only [List.map_cons, List.foldr_cons]
      exact Nat.le_trans (ih hrest) (Nat.le_max_right _ _)

/-- Witness for C5 (amended) at a single always-failing subscriber URL. -/
theorem fire_callbacks_joins_all_witness :
    "http-subscriber" ∈ ["http-subscriber"] ∧
    ((fire_callbacks ["http-subscriber"] (fun _ _ => CallbackOutcome.otherError)).1 = () ∧
     callback_elapsed (fire_single_callback ((fun _ _ => CallbackOutcome.otherError) "http-subscriber"))
       ≤ (fire_callbacks ["http-subscriber"] (fun _ _ => CallbackOutcome.otherError)).2) :=
  ⟨by decide,
   fire_callbacks_joins_all ["http-subscriber"] (fun _ _ => CallbackOutcome.otherError)
     "http-subscriber" (by decide)⟩

/-! ## Characterization lemmas for the messaging operations -/

lemma send_message_valid (fs : List DirEntry) (st : MessagingServer)
    (sid rid content : String) (now : Nat)
    (h1 : strip sid ≠ "") (h2 : strip rid ≠ "") (h3 : strip content ≠ "") :
    (send_message fs st sid rid content now).1
      = "✅ **Message sent successfully** to `" ++ rid ++ "`" ∧
    (send_message fs st sid rid content now).2.1.queues
      = enqueue (cleanup_expired_messages st.message_expiration_seconds now st.queues) rid
          ⟨sid, content, now⟩ ∧
    (send_message fs st sid rid content now).2.2
      = [Event.configLookup sid, Event.sweep, Event.validate,
         Event.enqueueStep rid, Event.notifyStep rid] := by
  have hp := get_client_config_preserves fs st sid
  simp only [send_message, if_neg h1, if_neg h2, if_neg h3, hp.1, hp.2]
  exact ⟨trivial, trivial, rfl⟩

lemma send_message_empty_content_spec (fs : List DirEntry) (st : MessagingServer)
    (sid rid content : String) (now : Nat)
    (h1 : strip sid ≠ "") (h2 : strip rid ≠ "") (h3 : strip content = "") :
    (send_message fs st sid rid content now).1 = "⚠️ **Warning**: Sending empty message" ∧
    (send_message fs st sid rid content now).2.1.queues
      = cleanup_expired_messages st.message_expiration_seconds now st.queues ∧
    (send_message fs st sid rid content now).2.2
      = [Event.configLookup sid, Event.sweep, Event.validate] := by
  have hp := get_client_config_preserves fs st sid
  simp only [send_message, if_neg h1, if_neg h2, if_pos h3, hp.1, hp.2]
  exact ⟨trivial, trivial, trivial⟩

lemma send_message_empty_sender (fs : List DirEntry) (st : MessagingServer)
    (sid rid content : String) (now : Nat) (h1 : strip sid = "") :
    (send_message fs st sid rid content now).1 = "❌ **Error**: Sender ID cannot be empty" ∧
    (send_message fs st sid rid content now).2.2
      = [Event.configLookup sid, Event.sweep, Event.validate] := by
  have hp := get_client_config_preserves fs st sid
  simp only [send_message, if_pos h1, hp.1, hp.2]
  exact ⟨trivial, trivial⟩

lemma send_message_empty_recipient (fs : List DirEntry) (st : MessagingServer)
    (sid rid content : String) (now : Nat) (h1 : strip sid ≠ "") (h2 : strip rid = "") :
    (send_message fs st sid rid content now).1 = "❌ **Error**: Recipient ID cannot be empty" ∧
    (send_message fs st sid rid content now).2.2
      = [Event.configLookup sid, Event.sweep, Event.validate] := by
  have hp := get_client_config_preserves fs st sid
  simp only [send_message, if_neg h1, if_pos h2, hp.1, hp.2]
  exact ⟨trivial, trivial⟩

lemma send_message_failed_cases (fs : List DirEntry) (st : MessagingServer)
    (sid rid content : String) (now : Nat)
    (h : strip sid = "" ∨ strip rid = "" ∨ strip content = "") :
    sendFailed (send_message fs st sid rid content now).1 = true ∧
    (send_message fs st sid rid content now).2.2
      = [Event.configLookup sid, Event.sweep, Event.validate] := by
  by_cases h1 : strip sid = ""
  · have k := send_message_empty_sender fs st sid rid content now h1
    rw [k.1]
    exact ⟨by decide, k.2⟩
  by_cases h2 : strip rid = ""
  · have k := send_message_empty_recipient fs st sid rid content now h1 h2
    rw [k.1]
    exact ⟨by decide, k.2⟩
  by_cases h3 : strip content = ""
  · have k := send_message_empty_content_spec fs st sid rid content now h1 h2 h3
    rw [k.1]
    exact ⟨by decide, k.2.2⟩
  · rcases h with h | h | h <;> contradiction

/-! ## Claim C1: empty-content send -/

/-- Claim C1 is refuted at this input: sending whitespace-only content from
`alice` to `bob` returns the warning result, yet the recipient mailbox stays
empty — a subsequent popAll for `bob` returns nothing, so the message was
not enqueued. -/
theorem send_message_empty_content_claim_cex :
    (send_message [] ⟨300, [], []⟩ "alice" "bob" " " 0).1
      = "⚠️ **Warning**: Sending empty message" ∧
    (popAll (send_message [] ⟨300, [], []⟩ "alice" "bob" " " 0).2.1.queues "bob").1 = [] := by
  decide

/-- Claim C1 (amended): when sender and recipient are non-empty after
trimming but content is empty or whitespace-only, the call returns the
warning-flavored result and returns early: the message is NOT enqueued — the
mailbox map after the call is exactly the swept pre-state, with no enqueue
step in the trace. -/
theorem send_message_empty_content_not_enqueued (fs : List DirEntry)
    (st : MessagingServer) (sid rid content : String) (now : Nat)
    (h1 : strip sid ≠ "") (h2 : strip rid ≠ "") (h3 : strip content = "") :
    (send_message fs st sid rid content now).1 = "⚠️ **Warning**: Sending empty message" ∧
    (send_message fs st sid rid content now).2.1.queues
      = cleanup_expired_messages st.message_expiration_seconds now st.queues ∧
    Event.enqueueStep rid ∉ (send_message fs st sid rid content now).2.2 := by
  have k := send_message_empty_content_spec fs st sid rid content now h1 h2 h3
  refine ⟨k.1, k.2.1, ?_⟩
  rw [k.2.2]
  simp

/-- Witness for C1 (amended) at sender `alice`, recipient `bob`, content a
single space. -/
theorem send_message_empty_content_not_enqueued_witness :
    (strip "alice" ≠ "" ∧ strip "bob" ≠ "" ∧ strip " " = "") ∧
    ((send_message [] ⟨300, [], []⟩ "alice" "bob" " " 0).1
        = "⚠️ **Warning**: Sending empty message" ∧
     (send_message [] ⟨300, [], []⟩ "alice" "bob" " " 0).2.1.queues
        = cleanup_expired_messages 300 0 [] ∧
     Event.enqueueStep "bob" ∉ (send_message [] ⟨300, [], []⟩ "alice" "bob" " " 0).2.2) :=
  ⟨⟨by decide, by decide, by decide⟩,
   send_message_empty_content_not_enqueued [] ⟨300, [], []⟩ "alice" "bob" " " 0
     (by decide) (by decide) (by decide)⟩

/-! ## Claim C6: step order of a send -/

/-- Claim C6 is refuted at this input: a send with an empty sender identity
fails validation, yet the expiration sweep has already run — the expired
message in the `bob` mailbox is purged — and the step trace records the
sweep strictly before the validation, not validation first as claimed. -/
theorem send_message_step_order_cex :
    (send_message [] ⟨300, [("bob", [⟨"x", "old", 0⟩])], []⟩ "" "bob" "hi" 1000).1
      = "❌ **Error**: Sender ID cannot be empty" ∧
    (send_message [] ⟨300, [("bob", [⟨"x", "old", 0⟩])], []⟩ "" "bob" "hi" 1000).2.1.queues
      = [("bob", [])] ∧
    (send_message [] ⟨300, [("bob", [⟨"x", "old", 0⟩])], []⟩ "" "bob" "hi" 1000).2.2
      = [Event.configLookup "", Event.sweep, Event.validate] := by
  decide

/-- Claim C6 (amended): every send performs its steps in the order
configuration lookup, then expiration sweep, then input validation, then (on
success) enqueue, then notify; the notify is issued only after the enqueue,
so the recipient mailbox seen by a woken waiter ends with the triggering
message appended after the swept pre-state. -/
theorem send_message_step_order (fs : List DirEntry) (st : MessagingServer)
    (sid rid content : String) (now : Nat)
    (h1 : strip sid ≠ "") (h2 : strip rid ≠ "") (h3 : strip content ≠ "") :
    (send_message fs st sid rid content now).2.2
      = [Event.configLookup sid, Event.sweep, Event.validate,
         Event.enqueueStep rid, Event.notifyStep rid] ∧
    getQueue (send_message fs st sid rid content now).2.1.queues rid
      = getQueue (cleanup_expired_messages st.message_expiration_seconds now st.queues) rid
          ++ [⟨sid, content, now⟩] := by
  have k := send_message_valid fs st sid rid content now h1 h2 h3
  refine ⟨k.2.2, ?_⟩
  rw [k.2.1, getQueue_enqueue]

/-- Witness for C6 (amended): a valid send from `alice` to `bob`. -/
theorem send_message_step_order_witness :
    (strip "alice" ≠ "" ∧ strip "bob" ≠ "" ∧ strip "hi" ≠ "") ∧
    ((send_message [] ⟨300, [], []⟩ "alice" "bob" "hi" 5).2.2
        = [Event.configLookup "alice", Event.sweep, Event.validate,
           Event.enqueueStep "bob", Event.notifyStep "bob"] ∧
     getQueue (send_message [] ⟨300, [], []⟩ "alice" "bob" "hi" 5).2.1.queues "bob"
        = getQueue (cleanup_expired_messages 300 5 []) "bob" ++ [⟨"alice", "hi", 5⟩]) :=
  ⟨⟨by decide, by decide, by decide⟩,
   send_message_step_order [] ⟨300, [], []⟩ "alice" "bob" "hi" 5
     (by decide) (by decide) (by decide)⟩

/-! ## Claim C3: when sendAndWait skips the wait -/

/-- Claim C3 is refuted at this input: with valid sender and recipient but
whitespace-only content, `send_message_and_wait` returns the warning result
of the inner send immediately — its trace contains no wait step — although
the claim says it should proceed to suspend on the wait primitive. -/
theorem send_and_wait_empty_content_cex :
    (send_message_and_wait [] ⟨300, [], []⟩ "alice" "bob" " " 0 ⟨true, id⟩).1
      = "⚠️ **Warning**: Sending empty message" ∧
    Event.waitStep "alice"
      ∉ (send_message_and_wait [] ⟨300, [], []⟩ "alice" "bob" " " 0 ⟨true, id⟩).2.2 := by
  decide

/-- Claim C3 (amended): `send_message_and_wait` returns without waiting
whenever the inner send reported a validation error OR the empty-content
warning (any result starting with the error or warning marker), returning
that send result unchanged; it suspends on the sender wait primitive exactly
when all three inputs are non-empty after trimming. -/
theorem send_and_wait_waits_iff (fs : List DirEntry) (st : MessagingServer)
    (sid rid content : String) (now : Nat) (env : WaitEnv) :
    (strip sid ≠ "" ∧ strip rid ≠ "" ∧ strip content ≠ "" →
      Event.waitStep sid ∈ (send_message_and_wait fs st sid rid content now env).2.2) ∧
    (strip sid = "" ∨ strip rid = "" ∨ strip content = "" →
      Event.waitStep sid ∉ (send_message_and_wait fs st sid rid content now env).2.2 ∧
      (send_message_and_wait fs st sid rid content now env).1
        = (send_message fs (get_client_config fs st sid).2.1 sid rid content now).1) := by
  constructor
  · rintro ⟨h1, h2, h3⟩
    have k := send_message_valid fs (get_client_config fs st sid).2.1 sid rid content now h1 h2 h3
    simp only [send_message_and_wait, k.1, sendFailed_success, Bool.false_eq_true,
      if_false, k.2.2]
    cases harr : env.arrived
    · simp [harr]
    · simp only [harr, if_true]
      split <;> simp
  · intro h
    have k := send_message_failed_cases fs (get_client_config fs st sid).2.1 sid rid content now h
    simp only [send_message_and_wait, k.1, if_true, k.2]
    constructor
    · simp
    · trivial

/-- Witness for C3 (amended): a valid conversation start waits; an
empty-content send does not. -/
theorem send_and_wait_waits_iff_witness :
    ((strip "alice" ≠ "" ∧ strip "bob" ≠ "" ∧ strip "hi" ≠ "") →
      Event.waitStep "alice"
        ∈ (send_message_and_wait [] ⟨300, [], []⟩ "alice" "bob" "hi" 0 ⟨false, id⟩).2.2) ∧
    ((strip "alice" = "" ∨ strip "bob" = "" ∨ strip " " = "") →
      Event.waitStep "alice"
        ∉ (send_message_and_wait [] ⟨300, [], []⟩ "alice" "bob" " " 0 ⟨false, id⟩).2.2 ∧
      (send_message_and_wait [] ⟨300, [], []⟩ "alice" "bob" " " 0 ⟨false, id⟩).1
        = (send_message [] (get_client_config [] ⟨300, [], []⟩ "alice").2.1
            "alice" "bob" " " 0).1) ∧
    (strip "alice" ≠ "" ∧ strip "bob" ≠ "" ∧ strip "hi" ≠ "") ∧
    (strip "alice" = "" ∨ strip "bob" = "" ∨ strip " " = "") :=
  ⟨(send_and_wait_waits_iff [] ⟨300, [], []⟩ "alice" "bob" "hi" 0 ⟨false, id⟩).1,
   (send_and_wait_waits_iff [] ⟨300, [], []⟩ "alice" "bob" " " 0 ⟨false, id⟩).2,
   ⟨by decide, by decide, by decide⟩, Or.inr (Or.inr (by decide))⟩

/-! ## Claim C2: timeout versus empty-reply outcomes -/

lemma smaw_timeout_result (fs : List DirEntry) (st : MessagingServer)
    (sid rid content : String) (now : Nat) (d : Queues → Queues)
    (h1 : strip sid ≠ "") (h2 : strip rid ≠ "") (h3 : strip content ≠ "") :
    (send_message_and_wait fs st sid rid content now ⟨false, d⟩).1
      = "⏰ **Timeout**: No response received within "
        ++ toString (get_client_config fs st sid).1.timeouts.send_message_and_wait
        ++ " seconds" := by
  have k := send_message_valid fs (get_client_config fs st sid).2.1 sid rid content now h1 h2 h3
  simp only [send_message_and_wait, k.1, sendFailed_success, Bool.false_eq_true, if_false]

lemma smaw_empty_reply_result (fs : List DirEntry) (st : MessagingServer)
    (sid rid content : String) (now : Nat) (d : Queues → Queues)
    (h1 : strip sid ≠ "") (h2 : strip rid ≠ "") (h3 : strip content ≠ "")
    (h4 : getQueue (d (enqueue
        (cleanup_expired_messages st.message_expiration_seconds now st.queues)
        rid ⟨sid, content, now⟩)) sid = []) :
    (send_message_and_wait fs st sid rid content now ⟨true, d⟩).1
      = "📭 **No response received** (queue was empty)" := by
  have k := send_message_valid fs (get_client_config fs st sid).2.1 sid rid content now h1 h2 h3
  have hp := get_client_config_preserves fs st sid
  have k2 : (send_message fs (get_client_config fs st sid).2.1 sid rid content now).2.1.queues
      = enqueue (cleanup_expired_messages st.message_expiration_seconds now st.queues)
          rid ⟨sid, content, now⟩ := by
    rw [k.2.1, hp.1, hp.2]
  simp only [send_message_and_wait, k.1, sendFailed_success, Bool.false_eq_true, if_false,
    k2, popAll]
  simp [h4]

lemma get_messages_timeout_result (fs : List DirEntry) (st : MessagingServer)
    (c : String) (now : Nat) (e : Queues → Queues) (hc : strip c ≠ "")
    (h5 : getQueue (cleanup_expired_messages st.message_expiration_seconds now st.queues) c
        = []) :
    (get_messages fs st c now ⟨false, e⟩).1 = "📭 **No messages** for you right now." := by
  have hp := get_client_config_preserves fs st c
  simp only [get_messages, if_neg hc, hp.1, hp.2, popAll]
  simp [h5]

lemma get_messages_arrived_empty_result (fs : List DirEntry) (st : MessagingServer)
    (c : String) (now : Nat) (e : Queues → Queues) (hc : strip c ≠ "")
    (h5 : getQueue (cleanup_expired_messages st.message_expiration_seconds now st.queues) c
        = [])
    (h6 : getQueue (e (removeKey
        (cleanup_expired_messages st.message_expiration_seconds now st.queues) c)) c = []) :
    (get_messages fs st c now ⟨true, e⟩).1 = "📭 **No messages** for you right now." := by
  have hp := get_client_config_preserves fs st c
  simp only [get_messages, if_neg hc, hp.1, hp.2, popAll]
  simp [h5, h6]

/-- Claim C2 is refuted at this input: for `get_messages` on an empty
mailbox, the timeout outcome (no notification within the window) and the
arrived-but-empty outcome yield the very same result string, although the
claim says the two outcomes never yield the same result.  Both runs did
suspend on the wait primitive. -/
theorem receive_outcomes_indistinguishable_cex :
    (get_messages [] ⟨300, [], []⟩ "bob" 0 ⟨false, id⟩).1
      = "📭 **No messages** for you right now." ∧
    (get_messages [] ⟨300, [], []⟩ "bob" 0 ⟨false, id⟩).1
      = (get_messages [] ⟨300, [], []⟩ "bob" 0 ⟨true, id⟩).1 ∧
    Event.waitStep "bob" ∈ (get_messages [] ⟨300, [], []⟩ "bob" 0 ⟨false, id⟩).2.2 ∧
    Event.waitStep "bob" ∈ (get_messages [] ⟨300, [], []⟩ "bob" 0 ⟨true, id⟩).2.2 := by
  decide

/-- Claim C2 (amended): for `send_message_and_wait` the timeout outcome and
the empty-reply outcome are distinguishable results, but for `get_messages`
they are not — both terminating outcomes yield the same no-messages
result. -/
theorem timeout_vs_empty_reply_outcomes (fs : List DirEntry) (st : MessagingServer)
    (sid rid content : String) (now : Nat) (d1 d2 e1 e2 : Queues → Queues) (c : String)
    (h1 : strip sid ≠ "") (h2 : strip rid ≠ "") (h3 : strip content ≠ "")
    (h4 : getQueue (d2 (enqueue
        (cleanup_expired_messages st.message_expiration_seconds now st.queues)
        rid ⟨sid, content, now⟩)) sid = [])
    (hc : strip c ≠ "")
    (h5 : getQueue (cleanup_expired_messages st.message_expiration_seconds now st.queues) c
        = [])
    (h6 : getQueue (e2 (removeKey
        (cleanup_expired_messages st.message_expiration_seconds now st.queues) c)) c = []) :
    (send_message_and_wait fs st sid rid content now ⟨true, d2⟩).1
      = "📭 **No response received** (queue was empty)" ∧
    (send_message_and_wait fs st sid rid content now ⟨false, d1⟩).1
      ≠ (send_message_and_wait fs st sid rid content now ⟨true, d2⟩).1 ∧
    (get_messages fs st c now ⟨false, e1⟩).1 = (get_messages fs st c now ⟨true, e2⟩).1 := by
  have ha := smaw_empty_reply_result fs st sid rid content now d2 h1 h2 h3 h4
  have hb := smaw_timeout_result fs st sid rid content now d1 h1 h2 h3
  refine ⟨ha, ?_, ?_⟩
  · rw [ha, hb]
    exact timeout_ne_empty_reply _
  · rw [get_messages_timeout_result fs st c now e1 hc h5,
        get_messages_arrived_empty_result fs st c now e2 hc h5 h6]

/-- Witness for C2 (amended): `alice` sends `hi` to `bob` and waits while no
reply ever lands in the `alice` mailbox; `bob` receives on an empty
mailbox. -/
theorem timeout_vs_empty_reply_outcomes_witness :
    (strip "alice" ≠ "" ∧ strip "bob" ≠ "" ∧ strip "hi" ≠ "" ∧
     getQueue (id (enqueue (cleanup_expired_messages 300 0 []) "bob"
        ⟨"alice", "hi", 0⟩)) "alice" = [] ∧
     getQueue (cleanup_expired_messages 300 0 []) "bob" = [] ∧
     getQueue (id (removeKey (cleanup_expired_messages 300 0 []) "bob")) "bob" = []) ∧
    ((send_message_and_wait [] ⟨300, [], []⟩ "alice" "bob" "hi" 0 ⟨true, id⟩).1
        = "📭 **No response received** (queue was empty)" ∧
     (send_message_and_wait [] ⟨300, [], []⟩ "alice" "bob" "hi" 0 ⟨false, id⟩).1
        ≠ (send_message_and_wait [] ⟨300, [], []⟩ "alice" "bob" "hi" 0 ⟨true, id⟩).1 ∧
     (get_messages [] ⟨300, [], []⟩ "bob" 0 ⟨false, id⟩).1
        = (get_messages [] ⟨300, [], []⟩ "bob" 0 ⟨true, id⟩).1) :=
  ⟨⟨by decide, by decide, by decide, by decide, by decide, by decide⟩,
   timeout_vs_empty_reply_outcomes [] ⟨300, [], []⟩ "alice" "bob" "hi" 0 id id id id "bob"
     (by decide) (by decide) (by decide) (by decide) (by decide) (by decide) (by decide)⟩

/-! ## Claims C7 and C10: the receive procedure -/

/-- Claim C7 (confirmed): for a valid client identity, `get_messages` sweeps
expired messages and pops the mailbox; when the pop is non-empty it returns
those messages immediately (trace ends at the single pop, with no wait
step); when empty it suspends on the wait primitive and retries the pop
exactly once (the trace shows the two pop steps around the wait), returning
the formatted new messages when the retry is non-empty and the distinguished
no-messages result when it is still empty or when the wait timed out. -/
theorem get_messages_procedure (fs : List DirEntry) (st : MessagingServer)
    (c : String) (now : Nat) (env : WaitEnv) (h : strip c ≠ "") :
    (getQueue (cleanup_expired_messages st.message_expiration_seconds now st.queues) c ≠ [] →
      (get_messages fs st c now env).1
        = format_messages_as_markdown c
            (getQueue (cleanup_expired_messages st.message_expiration_seconds now st.queues) c) ∧
      (get_messages fs st c now env).2.2
        = [Event.configLookup c, Event.sweep, Event.validate, Event.popAllStep c]) ∧
    (getQueue (cleanup_expired_messages st.message_expiration_seconds now st.queues) c = [] →
      env.arrived = false →
      (get_messages fs st c now env).1 = "📭 **No messages** for you right now." ∧
      (get_messages fs st c now env).2.2
        = [Event.configLookup c, Event.sweep, Event.validate, Event.popAllStep c,
           Event.waitStep c]) ∧
    (getQueue (cleanup_expired_messages st.message_expiration_seconds now st.queues) c = [] →
      env.arrived = true →
      (get_messages fs st c now env).2.2
        = [Event.configLookup c, Event.sweep, Event.validate, Event.popAllStep c,
           Event.waitStep c, Event.popAllStep c] ∧
      (getQueue (env.during (removeKey
          (cleanup_expired_messages st.message_expiration_seconds now st.queues) c)) c ≠ [] →
        (get_messages fs st c now env).1
          = format_messages_as_markdown c
              (getQueue (env.during (removeKey
                (cleanup_expired_messages st.message_expiration_seconds now st.queues) c)) c)) ∧
      (getQueue (env.during (removeKey
          (cleanup_expired_messages st.message_expiration_seconds now st.queues) c)) c = [] →
        (get_messages fs st c now env).1 = "📭 **No messages** for you right now.")) := by
  have hp := get_client_config_preserves fs st c
  refine ⟨?_, ?_, ?_⟩
  · intro hne
    simp only [get_messages, if_neg h, hp.1, hp.2, popAll, if_pos hne]
    exact ⟨trivial, rfl⟩
  · intro he harr
    simp only [get_messages, if_neg h, hp.1, hp.2, popAll, harr]
    simp [he]
  · intro he harr
    simp only [get_messages, if_neg h, hp.1, hp.2, popAll, harr]
    refine ⟨?_, ?_, ?_⟩
    · simp only [he]
      simp
      split <;> rfl
    · intro hne2
      simp [he, hne2]
    · intro he2
      simp [he, he2]

/-- Witness for C7 at a mailbox holding one fresh message for `bob`. -/
theorem get_messages_procedure_witness :
    strip "bob" ≠ "" ∧
    ((getQueue (cleanup_expired_messages 300 0 [("bob", [⟨"alice", "hi", 0⟩])]) "bob" ≠ [] →
      (get_messages [] ⟨300, [("bob", [⟨"alice", "hi", 0⟩])], []⟩ "bob" 0 ⟨false, id⟩).1
        = format_messages_as_markdown "bob"
            (getQueue (cleanup_expired_messages 300 0 [("bob", [⟨"alice", "hi", 0⟩])]) "bob") ∧
      (get_messages [] ⟨300, [("bob", [⟨"alice", "hi", 0⟩])], []⟩ "bob" 0 ⟨false, id⟩).2.2
        = [Event.configLookup "bob", Event.sweep, Event.validate, Event.popAllStep "bob"]) ∧
    (getQueue (cleanup_expired_messages 300 0 [("bob", [⟨"alice", "hi", 0⟩])]) "bob" = [] →
      (⟨false, id⟩ : WaitEnv).arrived = false →
      (get_messages [] ⟨300, [("bob", [⟨"alice", "hi", 0⟩])], []⟩ "bob" 0 ⟨false, id⟩).1
        = "📭 **No messages** for you right now." ∧
      (get_messages [] ⟨300, [("bob", [⟨"alice", "hi", 0⟩])], []⟩ "bob" 0 ⟨false, id⟩).2.2
        = [Event.configLookup "bob", Event.sweep, Event.validate, Event.popAllStep "bob",
           Event.waitStep "bob"]) ∧
    (getQueue (cleanup_expired_messages 300 0 [("bob", [⟨"alice", "hi", 0⟩])]) "bob" = [] →
      (⟨false, id⟩ : WaitEnv).arrived = true →
      (get_messages [] ⟨300, [("bob", [⟨"alice", "hi", 0⟩])], []⟩ "bob" 0 ⟨false, id⟩).2.2
        = [Event.configLookup "bob", Event.sweep, Event.validate, Event.popAllStep "bob",
           Event.waitStep "bob", Event.popAllStep "bob"] ∧
      (getQueue ((⟨false, id⟩ : WaitEnv).during (removeKey
          (cleanup_expired_messages 300 0 [("bob", [⟨"alice", "hi", 0⟩])]) "bob")) "bob" ≠ [] →
        (get_messages [] ⟨300, [("bob", [⟨"alice", "hi", 0⟩])], []⟩ "bob" 0 ⟨false, id⟩).1
          = format_messages_as_markdown "bob"
              (getQueue ((⟨false, id⟩ : WaitEnv).during (removeKey
                (cleanup_expired_messages 300 0 [("bob", [⟨"alice", "hi", 0⟩])]) "bob")) "bob")) ∧
      (getQueue ((⟨false, id⟩ : WaitEnv).during (removeKey
          (cleanup_expired_messages 300 0 [("bob", [⟨"alice", "hi", 0⟩])]) "bob")) "bob" = [] →
        (get_messages [] ⟨300, [("bob", [⟨"alice", "hi", 0⟩])], []⟩ "bob" 0 ⟨false, id⟩).1
          = "📭 **No messages** for you right now."))) :=
  ⟨by decide,
   get_messages_procedure [] ⟨300, [("bob", [⟨"alice", "hi", 0⟩])], []⟩ "bob" 0 ⟨false, id⟩
     (by decide)⟩

/-- Claim C10 (confirmed): `get_messages` with an empty or whitespace-only
client identity returns the user-facing validation error result without
popping or waiting, but only after the per-client configuration lookup and
the expiration sweep have both run: the trace is exactly lookup, sweep,
validation, the swept mailbox map is the post-state, and the configuration
for the identity is cached. -/
theorem get_messages_empty_client_id (fs : List DirEntry) (st : MessagingServer)
    (c : String) (now : Nat) (env : WaitEnv) (h : strip c = "") :
    (get_messages fs st c now env).1 = "❌ **Error**: Client ID cannot be empty" ∧
    (get_messages fs st c now env).2.2
      = [Event.configLookup c, Event.sweep, Event.validate] ∧
    (get_messages fs st c now env).2.1.queues
      = cleanup_expired_messages st.message_expiration_seconds now st.queues ∧
    (cacheFind (get_messages fs st c now env).2.1.client_configs c).isSome = true := by
  have hp := get_client_config_preserves fs st c
  have hcache := cacheFind_after_gcc fs st c
  simp only [get_messages, if_pos h, hp.1, hp.2]
  refine ⟨trivial, trivial, trivial, ?_⟩
  rw [hcache]
  rfl

/-- Witness for C10 at the empty client identity. -/
theorem get_messages_empty_client_id_witness :
    strip "" = "" ∧
    ((get_messages [] ⟨300, [], []⟩ "" 0 ⟨false, id⟩).1
        = "❌ **Error**: Client ID cannot be empty" ∧
     (get_messages [] ⟨300, [], []⟩ "" 0 ⟨false, id⟩).2.2
        = [Event.configLookup "", Event.sweep, Event.validate] ∧
     (get_messages [] ⟨300, [], []⟩ "" 0 ⟨false, id⟩).2.1.queues
        = cleanup_expired_messages 300 0 [] ∧
     (cacheFind (get_messages [] ⟨300, [], []⟩ "" 0 ⟨false, id⟩).2.1.client_configs "").isSome
        = true) :=
  ⟨by decide, get_messages_empty_client_id [] ⟨300, [], []⟩ "" 0 ⟨false, id⟩ (by decide)⟩
